import Mathlib

/-!
Verification of the Guttenread catalog lookup service
(`src/guttenread_mcp/server.py`) against its design specification.

The Python module is shallowly embedded: JSON-like Python values are the
inductive type `PyVal`; the remote Gutendex search and the text download
are oracles passed as function arguments; Python exceptions that can
escape a function are modelled with `Except PyError`.  All definitions
are translated from the source; definitions whose names end in
`ClaimC4` or similar are transcriptions of the specification wording,
used to compare the code with the spec.
-/

set_option maxHeartbeats 1000000

namespace Guttenread

/-- Model of the JSON-like Python values flowing through the server:
`None`, booleans, integers, strings, lists and string-keyed dicts
(dicts keep insertion order, as Python dicts do).  Numeric JSON values
are modelled as integers, which covers every field the server touches. -/
inductive PyVal where
  | none : PyVal
  | bool (b : Bool) : PyVal
  | int (n : Int) : PyVal
  | str (s : String) : PyVal
  | list (xs : List PyVal) : PyVal
  | dict (kvs : List (String × PyVal)) : PyVal
deriving Repr

/-- Python truthiness (`bool(v)`) for the modelled values. -/
def PyVal.truthy : PyVal → Bool
  | .none => false
  | .bool b => b
  | .int n => n != 0
  | .str s => s != ""
  | .list xs => !xs.isEmpty
  | .dict kvs => !kvs.isEmpty

/-- Python type name of a value, as used in exception messages. -/
def pyTypeName : PyVal → String
  | .none => "NoneType"
  | .bool _ => "bool"
  | .int _ => "int"
  | .str _ => "str"
  | .list _ => "list"
  | .dict _ => "dict"

/-- Lookup in a dict, returning `Option`: models `k in d` / `d[k]`. -/
def dictGet (kvs : List (String × PyVal)) (k : String) : Option PyVal :=
  (kvs.find? (fun kv => kv.1 == k)).map (fun kv => kv.2)

/-- Python `d.get(k)`: the value if present, `None` otherwise. -/
def pyGet (kvs : List (String × PyVal)) (k : String) : PyVal :=
  (dictGet kvs k).getD .none

/-- Python `a or b`: `a` when truthy, else `b`. -/
def pyOr (a b : PyVal) : PyVal :=
  if a.truthy then a else b

/-- Python exceptions that can escape the embedded functions. -/
inductive PyError where
  | typeError (msg : String) : PyError
  | attributeError (msg : String) : PyError
deriving Repr, DecidableEq

/-- Python iteration (`for x in v`): lists yield their elements, strings
their characters (as one-character strings), dicts their keys; other
values raise `TypeError`. -/
def pyIter : PyVal → Except PyError (List PyVal)
  | .list xs => .ok xs
  | .str s => .ok (s.data.map (fun c => PyVal.str (String.mk [c])))
  | .dict kvs => .ok (kvs.map (fun kv => PyVal.str kv.1))
  | v => .error (.typeError ("\x27" ++ pyTypeName v ++ "\x27 object is not iterable"))

/-- Characters Python `str.strip()` removes (ASCII whitespace). -/
def pyIsSpace (c : Char) : Bool :=
  c == ' ' || c == Char.ofNat 9 || c == Char.ofNat 10 ||
  c == Char.ofNat 13 || c == Char.ofNat 11 || c == Char.ofNat 12

/-- Python `s.strip()`: drop whitespace from both ends. -/
def pyStrip (s : String) : String :=
  String.mk (((s.data.dropWhile pyIsSpace).reverse.dropWhile pyIsSpace).reverse)

/-- Escape one character for Python `repr` of a string, given the chosen
quote delimiter.  Covers the printable characters the model needs. -/
def pyEscapeChar (delim : Char) (c : Char) : String :=
  if c == Char.ofNat 92 then String.mk [Char.ofNat 92, Char.ofNat 92]
  else if c == delim then String.mk [Char.ofNat 92, delim]
  else if c == Char.ofNat 10 then String.mk [Char.ofNat 92, 'n']
  else if c == Char.ofNat 13 then String.mk [Char.ofNat 92, 'r']
  else if c == Char.ofNat 9 then String.mk [Char.ofNat 92, 't']
  else String.mk [c]

/-- Python `repr` of a string: single-quoted unless the string contains
a single quote and no double quote, with the delimiter escaped. -/
def pyReprStr (s : String) : String :=
  let sq : Char := Char.ofNat 39
  let dq : Char := Char.ofNat 34
  let delim := if s.data.contains sq && !(s.data.contains dq) then dq else sq
  String.mk [delim] ++ String.join (s.data.map (pyEscapeChar delim)) ++ String.mk [delim]

mutual

/-- Python `repr(v)` for the modelled values. -/
def pyRepr : PyVal → String
  | .none => "None"
  | .bool b => if b then "True" else "False"
  | .int n => toString n
  | .str s => pyReprStr s
  | .list xs => "[" ++ pyReprList xs ++ "]"
  | .dict kvs => "\x7b" ++ pyReprDict kvs ++ "\x7d"

/-- Comma-separated `repr` of list elements. -/
def pyReprList : List PyVal → String
  | [] => ""
  | [x] => pyRepr x
  | x :: y :: xs => pyRepr x ++ ", " ++ pyReprList (y :: xs)

/-- Comma-separated `repr` of dict items. -/
def pyReprDict : List (String × PyVal) → String
  | [] => ""
  | [(k, v)] => pyReprStr k ++ ": " ++ pyRepr v
  | (k, v) :: kv2 :: kvs => pyReprStr k ++ ": " ++ pyRepr v ++ ", " ++ pyReprDict (kv2 :: kvs)

end

/-- Python `str(v)`: the string itself for strings, `repr` otherwise
(which coincides with `str` on the remaining modelled types). -/
def pyStr : PyVal → String
  | .str s => s
  | v => pyRepr v

/-!  Embedding of `_pick_best_text_format` (server.py lines 31-67). -/

/-- The fixed preference list of `_pick_best_text_format`. -/
def preferredKeys : List String :=
  ["text/plain; charset=utf-8",
   "text/plain; charset=us-ascii",
   "text/plain",
   "text/html; charset=utf-8",
   "text/html"]

/-- Test `url.lower().endswith(".zip")`: the last four characters of
the lowercased URL are `.zip` (stated over the character list). -/
def endsWithZip (url : String) : Bool :=
  let l := url.data.map Char.toLower
  l.drop (l.length - 4) == ['.', 'z', 'i', 'p']

/-- Test `key.startswith("text/")` (stated over the character list). -/
def startsWithText (k : String) : Bool :=
  k.data.take 5 == ['t', 'e', 'x', 't', '/']

/-- The first loop of `_pick_best_text_format`: walk the preference
keys; `formats.get(key)` must be truthy and a string (`if url and
isinstance(url, str)`), and not `.zip`-suffixed, to be returned;
otherwise the loop continues. -/
def firstPreferred (kvs : List (String × PyVal)) : List String → Option String
  | [] => Option.none
  | k :: rest =>
    match pyGet kvs k with
    | .str s => if s != "" && !endsWithZip s then some s else firstPreferred kvs rest
    | _ => firstPreferred kvs rest

/-- The fallback loop of `_pick_best_text_format`: the first item of
`formats.items()` whose value is a string, whose key starts with
`text/` and whose value is not `.zip`-suffixed. -/
def fallbackTextFormat : List (String × PyVal) → Option String
  | [] => Option.none
  | (k, v) :: rest =>
    match v with
    | .str s =>
      if startsWithText k && !endsWithZip s then some s else fallbackTextFormat rest
    | _ => fallbackTextFormat rest

/-- `_pick_best_text_format(formats)`.  The parameter is the raw value
of `book.get("formats") or {}`: a falsy value returns `None` at once
(`if not formats`), a truthy non-dict raises `AttributeError` at
`formats.get`, and a (truthy) dict goes through the two loops. -/
def pickBestTextFormat (formats : PyVal) : Except PyError (Option String) :=
  if !formats.truthy then .ok Option.none
  else
    match formats with
    | .dict kvs =>
      match firstPreferred kvs preferredKeys with
      | some url => .ok (some url)
      | Option.none => .ok (fallbackTextFormat kvs)
    | v => .error (.attributeError
        ("\x27" ++ pyTypeName v ++ "\x27 object has no attribute \x27get\x27"))

/-!  Embedding of `_search_gutendex` (server.py lines 70-95) and
`_download_text` (lines 98-117).  The HTTP layer is an oracle: for the
search, it yields either a transport-level failure (a `requests`
exception, including timeouts and `raise_for_status`), a JSON-decode
failure, or a decoded JSON body; for the download, either a
transport-level failure or the decoded response text. -/

/-- Outcome of `requests.get(...)` + `response.json()` for the search. -/
inductive HttpResp where
  | httpError (msg : String) : HttpResp
  | jsonError (msg : String) : HttpResp
  | body (data : PyVal) : HttpResp
deriving Repr

/-- Outcome of `requests.get(url)` + `resp.text` for a download. -/
inductive DlResult where
  | httpError (msg : String) : DlResult
  | body (text : String) : DlResult
deriving Repr

/-- Python `xs[:n]` for an integer bound `n`. -/
def pySliceTo (xs : List PyVal) (n : Int) : List PyVal :=
  if 0 ≤ n then xs.take n.toNat else xs.take (xs.length - (-n).toNat)

/-- `_search_gutendex(title, max_results)` as a function of the oracle
response for `title`.  Transport and JSON errors are caught and turned
into `([], error_message)`; `data.get("results", [])` raises
`AttributeError` when the decoded body is not a dict; a non-list
`results` value yields the shape error; otherwise the raw result list
is sliced to `max_results`. -/
def searchGutendex (resp : HttpResp) (maxResults : Int) :
    Except PyError (List PyVal × Option String) :=
  match resp with
  | .httpError e => .ok ([], some ("HTTP error while querying Gutendex: " ++ e))
  | .jsonError e => .ok ([], some ("Failed to decode JSON response from Gutendex: " ++ e))
  | .body data =>
    match data with
    | .dict kvs =>
      match (dictGet kvs "results").getD (.list []) with
      | .list rs => .ok (pySliceTo rs maxResults, Option.none)
      | _ => .ok ([], some "Unexpected Gutendex response format: \x27results\x27 is not a list")
    | v => .error (.attributeError
        ("\x27" ++ pyTypeName v ++ "\x27 object has no attribute \x27get\x27"))

/-- `_download_text(url, max_chars)` as a function of the oracle
response for `url`.  Transport errors become `(None, message)`;
otherwise the body is truncated to `max_chars` characters when
`max_chars` is set, positive, and smaller than the body length. -/
def downloadText (dl : String → DlResult) (url : String) (maxChars : Option Int) :
    Option String × Option String :=
  match dl url with
  | .httpError e => (Option.none, some ("HTTP error while downloading text: " ++ e))
  | .body text =>
    match maxChars with
    | some m =>
      if 0 < m ∧ (text.length : Int) > m
      then (some (String.mk (text.data.take m.toNat)), Option.none)
      else (some text, Option.none)
    | Option.none => (some text, Option.none)

/-!  Embedding of `_normalize_book` (server.py lines 120-178). -/

/-- Python `isinstance(v, int)`: true for integers and, because `bool`
is a subclass of `int` in Python, also for booleans. -/
def isInstInt : PyVal → Bool
  | .int _ => true
  | .bool _ => true
  | _ => false

/-- The authors loop of `_normalize_book`: non-dict entries are
skipped, dict entries keep exactly name, birth_year and death_year
(missing ones becoming `None` through `.get`). -/
def authorsOf (rawAuthors : List PyVal) : List PyVal :=
  rawAuthors.filterMap fun a =>
    match a with
    | .dict d => some (PyVal.dict
        [("name", pyGet d "name"),
         ("birth_year", pyGet d "birth_year"),
         ("death_year", pyGet d "death_year")])
    | _ => Option.none

/-- The canonical catalog URL: built with an f-string when
`isinstance(book_id, int)`, `None` otherwise. -/
def gutenbergUrlOf (bookId : PyVal) : PyVal :=
  if isInstInt bookId then .str ("https://www.gutenberg.org/ebooks/" ++ pyStr bookId)
  else .none

/-- Lift `Option String` into a Python value (`None` or the string). -/
def optStrToPy : Option String → PyVal
  | some s => .str s
  | Option.none => .none

/-- The `text` / `text_error` pair of `_normalize_book`: the download
runs only under `if download_text and text_url:`, i.e. when requested
and the resolved URL is a truthy (non-empty) string. -/
def textFields (dl : String → DlResult) (textUrl : Option String)
    (downloadTextFlag : Bool) (maxChars : Option Int) : Option String × Option String :=
  match textUrl with
  | some u =>
    if downloadTextFlag && u != "" then downloadText dl u maxChars
    else (Option.none, Option.none)
  | Option.none => (Option.none, Option.none)

/-- The pure tail of `_normalize_book`: assemble the normalized dict
from the book record, the (already iterated) raw authors and the
resolved text URL.  When `download_text` is true the `text` key is
always added (possibly holding `None`), and `text_error` is added only
when the error string is truthy. -/
def normalizeCore (dl : String → DlResult) (book : List (String × PyVal))
    (rawAuthors : List PyVal) (textUrl : Option String)
    (downloadTextFlag : Bool) (maxChars : Option Int) : List (String × PyVal) :=
  let te := textFields dl textUrl downloadTextFlag maxChars
  [("id", pyGet book "id"),
   ("title", pyGet book "title"),
   ("authors", .list (authorsOf rawAuthors)),
   ("languages", pyOr (pyGet book "languages") (.list [])),
   ("download_count", pyGet book "download_count"),
   ("subjects", pyOr (pyGet book "subjects") (.list [])),
   ("bookshelves", pyOr (pyGet book "bookshelves") (.list [])),
   ("copyright", pyGet book "copyright"),
   ("gutenberg_url", gutenbergUrlOf (pyGet book "id")),
   ("text_url", optStrToPy textUrl)]
  ++ (if downloadTextFlag then
        [("text", optStrToPy te.1)]
        ++ (match te.2 with
            | some e => if e != "" then [("text_error", PyVal.str e)] else []
            | Option.none => [])
      else [])

/-- `_normalize_book(book, download_text, max_chars)`.  The two
operations that can raise are iterating `book.get("authors") or []`
and calling `_pick_best_text_format(book.get("formats") or {})`; all
remaining steps are total. -/
def normalizeBook (dl : String → DlResult) (book : List (String × PyVal))
    (downloadTextFlag : Bool) (maxChars : Option Int) :
    Except PyError (List (String × PyVal)) :=
  match pyIter (pyOr (pyGet book "authors") (.list [])) with
  | .error e => .error e
  | .ok rawAuthors =>
    match pickBestTextFormat (pyOr (pyGet book "formats") (.dict [])) with
    | .error e => .error e
    | .ok textUrl => .ok (normalizeCore dl book rawAuthors textUrl downloadTextFlag maxChars)

/-!  Embedding of `search_gutenberg` (server.py lines 181-272).  The
per-title coroutines created for `asyncio.gather` are `gatherM` below:
`gather` returns the task results in argument order and propagates a
raised exception instead of a result list. -/

/-- Sequence a fallible computation over a list, collecting the results
in order (the data-flow of `asyncio.gather(*tasks)`). -/
def gatherM (f : α → Except PyError β) : List α → Except PyError (List β)
  | [] => .ok []
  | x :: xs =>
    match f x with
    | .error e => .error e
    | .ok y =>
      match gatherM f xs with
      | .error e => .error e
      | .ok ys => .ok (y :: ys)

/-- The dict-shaped entries of a raw result list, in order: the body of
`for book in raw_results: if not isinstance(book, dict): continue`. -/
def dictShaped (xs : List PyVal) : List (List (String × PyVal)) :=
  xs.filterMap fun b =>
    match b with
    | .dict d => some d
    | _ => Option.none

/-- `handle_single_title(q)` (server.py lines 249-266): search, then
normalize each dict-shaped raw result, then build the entry; the
`error` key is added only when the search error string is truthy. -/
def handleSingleTitle (searchO : String → HttpResp) (dl : String → DlResult)
    (q : String) (maxResults : Int) (downloadTextFlag : Bool) (maxChars : Option Int) :
    Except PyError (List (String × PyVal)) :=
  match searchGutendex (searchO q) maxResults with
  | .error e => .error e
  | .ok (rawResults, err) =>
    match gatherM (fun d => normalizeBook dl d downloadTextFlag maxChars)
        (dictShaped rawResults) with
    | .error e => .error e
    | .ok matchDicts =>
      .ok ([("query", PyVal.str q), ("matches", PyVal.list (matchDicts.map PyVal.dict))]
        ++ (match err with
            | some e => if e != "" then [("error", PyVal.str e)] else []
            | Option.none => []))

/-- The cleaned titles: `[t for t in (str(t).strip() for t in titles) if t]`. -/
def cleanedTitles (ts : List PyVal) : List String :=
  (ts.map fun t => pyStrip (pyStr t)).filter (fun s => s != "")

/-- The clamp `if max_results_per_title <= 0: max_results_per_title = 1`. -/
def clampMax (m : Int) : Int :=
  if m ≤ 0 then 1 else m

/-- `search_gutenberg(titles, max_results_per_title, download_text,
max_chars)`: reject non-list titles with `TypeError`, clean the titles,
return `{"results": []}` at once when none survive, otherwise gather
the per-title entries in input order. -/
def searchGutenberg (searchO : String → HttpResp) (dl : String → DlResult)
    (titles : PyVal) (maxResultsPerTitle : Int) (downloadTextFlag : Bool)
    (maxChars : Option Int) : Except PyError PyVal :=
  match titles with
  | .list ts =>
    let cleaned := cleanedTitles ts
    if cleaned.isEmpty then .ok (.dict [("results", .list [])])
    else
      match gatherM
          (fun q => handleSingleTitle searchO dl q (clampMax maxResultsPerTitle)
            downloadTextFlag maxChars) cleaned with
      | .error e => .error e
      | .ok entries => .ok (.dict [("results", .list (entries.map PyVal.dict))])
  | _ => .error (.typeError "titles must be a list of strings")

/-!  Transcriptions of the specification wording for the format
selection policy, used to compare the code with the spec (claim C4). -/

/-- The preferred-key pass exactly as the specification words it: the
first present, non-null, string-valued, non-zip-suffixed URL under the
preference keys, in priority order.  Unlike the code, it does not
require the string to be truthy (non-empty). -/
def claimPreferredC4 (kvs : List (String × PyVal)) : List String → Option String
  | [] => Option.none
  | k :: rest =>
    match dictGet kvs k with
    | some (.str s) => if !endsWithZip s then some s else claimPreferredC4 kvs rest
    | _ => claimPreferredC4 kvs rest

/-- The fallback pass as the specification words it: the first mapping
entry, in the mapping order, whose key starts with `text/` and whose
string value is not zip-suffixed. -/
def claimFallbackC4 : List (String × PyVal) → Option String
  | [] => Option.none
  | (k, v) :: rest =>
    match v with
    | .str s =>
      if startsWithText k && !endsWithZip s then some s else claimFallbackC4 rest
    | _ => claimFallbackC4 rest

/-- The whole selection policy as claim C4 states it. -/
def claimPickC4 (kvs : List (String × PyVal)) : Option String :=
  match claimPreferredC4 kvs preferredKeys with
  | some u => some u
  | Option.none => claimFallbackC4 kvs

/-- The amended preferred-key pass: as claim C4, but the URL must also
be non-empty (the truthiness test the code actually performs). -/
def amendedPreferredC4 (kvs : List (String × PyVal)) : List String → Option String
  | [] => Option.none
  | k :: rest =>
    match dictGet kvs k with
    | some (.str s) =>
      if s != "" && !endsWithZip s then some s else amendedPreferredC4 kvs rest
    | _ => amendedPreferredC4 kvs rest

/-- The amended selection policy for claim C4. -/
def amendedPickC4 (kvs : List (String × PyVal)) : Option String :=
  match amendedPreferredC4 kvs preferredKeys with
  | some u => some u
  | Option.none => claimFallbackC4 kvs

/-- Truncation as claim C5 states it: the first `max_chars` characters
when `max_chars` is set and positive, the whole body otherwise. -/
def truncClaim (maxChars : Option Int) (body : String) : String :=
  match maxChars with
  | some m => if 0 < m then String.mk (body.data.take m.toNat) else body
  | Option.none => body

/-!  Concrete oracles used by witnesses. -/

/-- A search oracle whose every request fails at the transport level. -/
def oracleConnFail : String → HttpResp := fun _ => .httpError "connection refused"

/-- A download oracle whose every request fails. -/
def oracleNoneDl : String → DlResult := fun _ => .httpError "unreachable"

/-- A download oracle that always returns the body `HelloWorld`. -/
def oracleHelloDl : String → DlResult := fun _ => .body "HelloWorld"

/-- A search oracle returning an empty result list. -/
def oracleEmptySearch : String → HttpResp := fun _ => .body (.dict [("results", .list [])])

/-!  Helper lemmas. -/

theorem gatherM_ok_length {α β : Type} {f : α → Except PyError β} :
    ∀ {xs : List α} {ys : List β}, gatherM f xs = .ok ys → ys.length = xs.length := by
  intro xs
  induction xs with
  | nil => intro ys h; cases h; rfl
  | cons x xs ih =>
    intro ys h
    simp only [gatherM] at h
    split at h
    · cases h
    · split at h
      · cases h
      · cases h; simp [ih (by assumption)]

theorem gatherM_ok_get {α β : Type} {f : α → Except PyError β} :
    ∀ {xs : List α} {ys : List β}, gatherM f xs = .ok ys →
      ∀ i (hi : i < xs.length) (hi2 : i < ys.length),
        f (xs.get ⟨i, hi⟩) = .ok (ys.get ⟨i, hi2⟩) := by
  intro xs
  induction xs with
  | nil => intro ys h i hi; cases hi
  | cons x xs ih =>
    intro ys h i hi hi2
    simp only [gatherM] at h
    split at h
    · cases h
    · split at h
      · cases h
      · cases h
        match i with
        | 0 => simpa using (by assumption : f x = .ok _)
        | Nat.succ j =>
          exact ih (by assumption) j (Nat.lt_of_succ_lt_succ hi) (Nat.lt_of_succ_lt_succ hi2)

theorem gatherM_ok_of_forall {α β : Type} {f : α → Except PyError β} :
    ∀ {xs : List α}, (∀ x ∈ xs, ∃ y, f x = .ok y) → ∃ ys, gatherM f xs = .ok ys := by
  intro xs
  induction xs with
  | nil => intro _; exact ⟨[], rfl⟩
  | cons x xs ih =>
    intro h
    obtain ⟨y, hy⟩ := h x (by simp)
    obtain ⟨ys, hys⟩ := ih (fun a ha => h a (by simp [ha]))
    exact ⟨y :: ys, by simp only [gatherM, hy, hys]⟩

theorem gatherM_error_mem {α β : Type} {f : α → Except PyError β} {e : PyError} :
    ∀ {xs : List α}, gatherM f xs = .error e → ∃ x ∈ xs, f x = .error e := by
  intro xs
  induction xs with
  | nil => intro h; cases h
  | cons x xs ih =>
    intro h
    simp only [gatherM] at h
    split at h
    · cases h; exact ⟨x, by simp, by assumption⟩
    · split at h
      · cases h
        obtain ⟨a, ha, hfa⟩ := ih (by assumption)
        exact ⟨a, by simp [ha], hfa⟩
      · cases h

theorem string_append_ne_empty {a b : String} (h : a ≠ "") : a ++ b ≠ "" := by
  intro hc
  apply h
  have hl := congrArg String.length hc
  rw [String.length_append] at hl
  have h0 : ("" : String).length = 0 := rfl
  rw [h0] at hl
  have : a.length = 0 := by omega
  cases a with
  | mk data =>
    cases data with
    | nil => rfl
    | cons c cs => simp [String.length, List.length] at this

theorem normalizeBook_ok_iff {dl : String → DlResult} {book : List (String × PyVal)}
    {dtf : Bool} {mc : Option Int} {nd : List (String × PyVal)} :
    normalizeBook dl book dtf mc = .ok nd ↔
    ∃ ra tu, pyIter (pyOr (pyGet book "authors") (.list [])) = .ok ra ∧
      pickBestTextFormat (pyOr (pyGet book "formats") (.dict [])) = .ok tu ∧
      nd = normalizeCore dl book ra tu dtf mc := by
  unfold normalizeBook
  constructor
  · intro h
    split at h
    · cases h
    · next ra heq =>
      split at h
      · cases h
      · next tu heq2 =>
        cases h
        exact ⟨ra, tu, heq, heq2, rfl⟩
  · rintro ⟨ra, tu, h1, h2, h3⟩
    simp [h1, h2, h3]

theorem dictGet_normalizeCore_authors (dl : String → DlResult)
    (book : List (String × PyVal)) (ra : List PyVal) (tu : Option String)
    (dtf : Bool) (mc : Option Int) :
    dictGet (normalizeCore dl book ra tu dtf mc) "authors"
      = some (.list (authorsOf ra)) := by
  simp [normalizeCore, dictGet, List.find?]

theorem dictGet_normalizeCore_languages (dl : String → DlResult)
    (book : List (String × PyVal)) (ra : List PyVal) (tu : Option String)
    (dtf : Bool) (mc : Option Int) :
    dictGet (normalizeCore dl book ra tu dtf mc) "languages"
      = some (pyOr (pyGet book "languages") (.list [])) := by
  simp [normalizeCore, dictGet, List.find?]

theorem dictGet_normalizeCore_text_url (dl : String → DlResult)
    (book : List (String × PyVal)) (ra : List PyVal) (tu : Option String)
    (dtf : Bool) (mc : Option Int) :
    dictGet (normalizeCore dl book ra tu dtf mc) "text_url"
      = some (optStrToPy tu) := by
  simp [normalizeCore, dictGet, List.find?]

theorem dictGet_normalizeCore_gutenberg_url (dl : String → DlResult)
    (book : List (String × PyVal)) (ra : List PyVal) (tu : Option String)
    (dtf : Bool) (mc : Option Int) :
    dictGet (normalizeCore dl book ra tu dtf mc) "gutenberg_url"
      = some (gutenbergUrlOf (pyGet book "id")) := by
  simp [normalizeCore, dictGet, List.find?]

theorem dictGet_normalizeCore_text_false (dl : String → DlResult)
    (book : List (String × PyVal)) (ra : List PyVal) (tu : Option String)
    (mc : Option Int) :
    dictGet (normalizeCore dl book ra tu false mc) "text" = Option.none := by
  simp [normalizeCore, dictGet, List.find?]

theorem dictGet_normalizeCore_text_error_false (dl : String → DlResult)
    (book : List (String × PyVal)) (ra : List PyVal) (tu : Option String)
    (mc : Option Int) :
    dictGet (normalizeCore dl book ra tu false mc) "text_error" = Option.none := by
  simp [normalizeCore, dictGet, List.find?]

theorem dictGet_normalizeCore_text_true (dl : String → DlResult)
    (book : List (String × PyVal)) (ra : List PyVal) (tu : Option String)
    (mc : Option Int) :
    dictGet (normalizeCore dl book ra tu true mc) "text"
      = some (optStrToPy (textFields dl tu true mc).1) := by
  simp [normalizeCore, dictGet, List.find?]

theorem dictGet_normalizeCore_text_error_true (dl : String → DlResult)
    (book : List (String × PyVal)) (ra : List PyVal) (tu : Option String)
    (mc : Option Int) :
    dictGet (normalizeCore dl book ra tu true mc) "text_error"
      = (match (textFields dl tu true mc).2 with
         | some e => if e != "" then some (PyVal.str e) else Option.none
         | Option.none => Option.none) := by
  cases h2 : (textFields dl tu true mc).2 with
  | none => simp [normalizeCore, dictGet, List.find?, h2]
  | some e =>
    by_cases he : e = ""
    · subst he
      simp [normalizeCore, dictGet, List.find?, h2]
    · simp [normalizeCore, dictGet, List.find?, h2, he]

theorem downloadText_of_body {dl : String → DlResult} {u : String} {b : String}
    (mc : Option Int) (h : dl u = .body b) :
    downloadText dl u mc = (some (truncClaim mc b), Option.none) := by
  unfold downloadText truncClaim
  rw [h]
  cases mc with
  | none => rfl
  | some m =>
    by_cases hm : 0 < m
    · by_cases hlen : (b.length : Int) > m
      · simp [hm, hlen]
      · have hle : b.data.length ≤ m.toNat := by
          have hmn : (m.toNat : Int) = m := Int.toNat_of_nonneg (le_of_lt hm)
          have : (b.length : Int) ≤ m := by omega
          have hbl : b.length = b.data.length := rfl
          omega
        have htake : b.data.take m.toNat = b.data := List.take_of_length_le hle
        have hmk : String.mk b.data = b := by cases b; rfl
        simp [hm, hlen, htake, hmk]
    · simp [hm]

theorem handleSingleTitle_ok_query {searchO : String → HttpResp} {dl : String → DlResult}
    {q : String} {m : Int} {dtf : Bool} {mc : Option Int} {entry : List (String × PyVal)}
    (h : handleSingleTitle searchO dl q m dtf mc = .ok entry) :
    dictGet entry "query" = some (.str q) := by
  unfold handleSingleTitle at h
  split at h
  · cases h
  · split at h
    · cases h
    · cases h
      simp [dictGet, List.find?]

theorem pyIter_error_ne_titles {v : PyVal} {e : PyError}
    (h : pyIter v = .error e) :
    e ≠ PyError.typeError "titles must be a list of strings" := by
  cases v <;> simp [pyIter, pyTypeName] at h <;> subst h <;> decide

theorem pickBestTextFormat_error_attr {v : PyVal} {e : PyError}
    (h : pickBestTextFormat v = .error e) : ∃ s, e = .attributeError s := by
  unfold pickBestTextFormat at h
  split at h
  · cases h
  · split at h
    · split at h <;> cases h
    · cases h
      exact ⟨_, rfl⟩

theorem searchGutendex_error_attr {r : HttpResp} {m : Int} {e : PyError}
    (h : searchGutendex r m = .error e) : ∃ s, e = .attributeError s := by
  unfold searchGutendex at h
  split at h
  · cases h
  · cases h
  · split at h
    · split at h <;> cases h
    · cases h
      exact ⟨_, rfl⟩

theorem normalizeBook_error_ne_titles {dl : String → DlResult}
    {book : List (String × PyVal)} {dtf : Bool} {mc : Option Int} {e : PyError}
    (h : normalizeBook dl book dtf mc = .error e) :
    e ≠ PyError.typeError "titles must be a list of strings" := by
  unfold normalizeBook at h
  split at h
  · next heq =>
    cases h
    exact pyIter_error_ne_titles heq
  · split at h
    · next heq2 =>
      cases h
      obtain ⟨s, hs⟩ := pickBestTextFormat_error_attr heq2
      subst hs
      intro hc
      exact PyError.noConfusion hc
    · cases h

theorem handleSingleTitle_error_ne_titles {searchO : String → HttpResp}
    {dl : String → DlResult} {q : String} {m : Int} {dtf : Bool} {mc : Option Int}
    {e : PyError}
    (h : handleSingleTitle searchO dl q m dtf mc = .error e) :
    e ≠ PyError.typeError "titles must be a list of strings" := by
  unfold handleSingleTitle at h
  split at h
  · next heq =>
    cases h
    obtain ⟨s, hs⟩ := searchGutendex_error_attr heq
    subst hs
    intro hc
    exact PyError.noConfusion hc
  · split at h
    · next heq2 =>
      cases h
      obtain ⟨d, _, hde⟩ := gatherM_error_mem heq2
      exact normalizeBook_error_ne_titles hde
    · cases h

/-- Decides whether a search oracle outcome is one of the captured
failure modes of `_search_gutendex`: a transport error (including
timeouts and bad HTTP statuses), a JSON-decode error, or a decoded
dict body whose `results` value is present and not a list. -/
def isSearchFailure : HttpResp → Bool
  | .httpError _ => true
  | .jsonError _ => true
  | .body (.dict kvs) =>
    (match dictGet kvs "results" with
     | some (.list _) => false
     | some _ => true
     | Option.none => false)
  | .body _ => false

/-- The error string `_search_gutendex` records for each failure mode. -/
def searchFailureMsg : HttpResp → String
  | .httpError e => "HTTP error while querying Gutendex: " ++ e
  | .jsonError e => "Failed to decode JSON response from Gutendex: " ++ e
  | .body _ => "Unexpected Gutendex response format: \x27results\x27 is not a list"

theorem searchFailureMsg_ne_empty (r : HttpResp) : searchFailureMsg r ≠ "" := by
  cases r with
  | httpError e => exact string_append_ne_empty (by decide)
  | jsonError e => exact string_append_ne_empty (by decide)
  | body d =>
    show "Unexpected Gutendex response format: \x27results\x27 is not a list" ≠ ""
    decide

theorem searchGutendex_of_failure {r : HttpResp} (m : Int)
    (h : isSearchFailure r = true) :
    searchGutendex r m = .ok ([], some (searchFailureMsg r)) := by
  cases r with
  | httpError e => rfl
  | jsonError e => rfl
  | body data =>
    cases data with
    | dict kvs =>
      simp only [isSearchFailure] at h
      cases hres : dictGet kvs "results" with
      | none => rw [hres] at h; cases h
      | some v =>
        rw [hres] at h
        cases v <;> simp_all [searchGutendex, searchFailureMsg, hres]
    | none => cases h
    | bool b => cases h
    | int n => cases h
    | str s => cases h
    | list xs => cases h

/-- C1: for every list input on which `search_gutenberg` returns, the
returned value is a dict whose `results` list holds exactly one entry
per cleaned (stripped, non-empty) title, in cleaned input order, and
the `query` field of the i-th entry is the i-th cleaned title. -/
theorem lookup_one_result_per_cleaned_title
    (searchO : String → HttpResp) (dl : String → DlResult) (ts : List PyVal)
    (mrpt : Int) (dtf : Bool) (mc : Option Int) (resp : PyVal)
    (h : searchGutenberg searchO dl (.list ts) mrpt dtf mc = .ok resp) :
    ∃ entries : List (List (String × PyVal)),
      resp = .dict [("results", .list (entries.map PyVal.dict))]
      ∧ entries.length = (cleanedTitles ts).length
      ∧ ∀ i (hi : i < entries.length) (hi2 : i < (cleanedTitles ts).length),
          dictGet (entries.get ⟨i, hi⟩) "query"
            = some (.str ((cleanedTitles ts).get ⟨i, hi2⟩)) := by
  simp only [searchGutenberg] at h
  split at h
  · next hEmpty =>
    cases h
    refine ⟨[], rfl, ?_, ?_⟩
    · simp [List.isEmpty_iff.mp hEmpty]
    · intro i hi hi2
      exact absurd hi (Nat.not_lt_zero i)
  · split at h
    · cases h
    · next entries hgather =>
      cases h
      refine ⟨entries, rfl, gatherM_ok_length hgather, ?_⟩
      intro i hi hi2
      exact handleSingleTitle_ok_query (gatherM_ok_get hgather i hi2 hi)

/-- Concrete response used by the witness for C1. -/
def respC1 : PyVal :=
  .dict [("results", .list
    [PyVal.dict [("query", .str "a"), ("matches", .list []),
                 ("error", .str "HTTP error while querying Gutendex: connection refused")]])]

/-- Witness for C1 at the concrete input `[" a "]` with a failing
search oracle. -/
theorem lookup_one_result_per_cleaned_title_witness :
    ∃ entries : List (List (String × PyVal)),
      respC1 = .dict [("results", .list (entries.map PyVal.dict))]
      ∧ entries.length = (cleanedTitles [PyVal.str " a "]).length
      ∧ ∀ i (hi : i < entries.length) (hi2 : i < (cleanedTitles [PyVal.str " a "]).length),
          dictGet (entries.get ⟨i, hi⟩) "query"
            = some (.str ((cleanedTitles [PyVal.str " a "]).get ⟨i, hi2⟩)) :=
  lookup_one_result_per_cleaned_title oracleConnFail oracleNoneDl [PyVal.str " a "] 3 false
    Option.none respC1 rfl

/-- C2: `search_gutenberg` raises the invalid-argument `TypeError`
exactly when `titles` is not a list (the cleaning pipeline and the
per-title tasks can only produce differently-labelled errors), and a
list whose cleaned titles are empty yields `{"results": []}` for every
oracle, i.e. without any remote call. -/
theorem invalid_argument_iff_not_list (searchO : String → HttpResp) (dl : String → DlResult)
    (titles : PyVal) (mrpt : Int) (dtf : Bool) (mc : Option Int) :
    (searchGutenberg searchO dl titles mrpt dtf mc
        = .error (.typeError "titles must be a list of strings")
      ↔ ∀ ts : List PyVal, titles ≠ .list ts)
    ∧ (∀ ts : List PyVal, titles = .list ts → cleanedTitles ts = [] →
        searchGutenberg searchO dl titles mrpt dtf mc
          = .ok (.dict [("results", .list [])])) := by
  constructor
  · constructor
    · intro h ts hts
      subst hts
      simp only [searchGutenberg] at h
      split at h
      · cases h
      · split at h
        · next e heq =>
          rw [Except.error.injEq] at h
          obtain ⟨d, _, hde⟩ := gatherM_error_mem heq
          exact handleSingleTitle_error_ne_titles hde h
        · cases h
    · intro hnot
      cases titles with
      | list ts => exact absurd rfl (hnot ts)
      | none => rfl
      | bool b => rfl
      | int n => rfl
      | str s => rfl
      | dict kvs => rfl
  · intro ts hts hclean
    subst hts
    simp [searchGutenberg, hclean]

/-- Witness for C2: an all-whitespace title list returns an empty
result set immediately. -/
theorem invalid_argument_iff_not_list_witness :
    searchGutenberg oracleConnFail oracleNoneDl (.list [PyVal.str "  "]) 3 false Option.none
      = .ok (.dict [("results", .list [])]) :=
  (invalid_argument_iff_not_list oracleConnFail oracleNoneDl (.list [PyVal.str "  "]) 3 false
      Option.none).2 [PyVal.str "  "] rfl rfl

/-- C10: a list input never triggers the invalid-argument `TypeError`,
whatever the types of its elements; each element is coerced through
`str()` and stripped (integer 5 becomes the query `5`, `None` becomes
the query `None`), and only empty-after-strip coercions are dropped. -/
theorem list_titles_never_rejected (searchO : String → HttpResp) (dl : String → DlResult)
    (ts : List PyVal) (mrpt : Int) (dtf : Bool) (mc : Option Int) :
    searchGutenberg searchO dl (.list ts) mrpt dtf mc
        ≠ .error (.typeError "titles must be a list of strings")
    ∧ cleanedTitles [PyVal.int 5] = ["5"]
    ∧ cleanedTitles [PyVal.none] = ["None"]
    ∧ ∀ (t : PyVal) (ts2 : List PyVal),
        cleanedTitles (t :: ts2)
          = (if pyStrip (pyStr t) = "" then [] else [pyStrip (pyStr t)])
            ++ cleanedTitles ts2 := by
  refine ⟨?_, rfl, rfl, ?_⟩
  · intro h
    simp only [searchGutenberg] at h
    split at h
    · cases h
    · split at h
      · next e heq =>
        rw [Except.error.injEq] at h
        obtain ⟨d, _, hde⟩ := gatherM_error_mem heq
        exact handleSingleTitle_error_ne_titles hde h
      · cases h
  · intro t ts2
    by_cases hp : pyStrip (pyStr t) = ""
    · simp [cleanedTitles, List.filter_cons, hp]
    · simp [cleanedTitles, List.filter_cons, hp]

/-- Witness for C10: the integer element 5 is searched as the query 5. -/
theorem list_titles_never_rejected_witness :
    cleanedTitles [PyVal.int 5] = ["5"] :=
  (list_titles_never_rejected oracleConnFail oracleNoneDl [PyVal.int 5] 3 false
      Option.none).2.1

/-- C3: a search failure (transport error, timeout, JSON-decode error,
or a non-list `results` field) for one query does not raise: that
query's entry records the descriptive error string together with an
empty (not null) matches list; every other query's entry depends only
on its own oracle response; and all entries remain present in the
response, each the value of its own per-title task, in input order. -/
theorem search_failure_isolated
    (searchO : String → HttpResp) (dl : String → DlResult) (ts : List PyVal)
    (mrpt : Int) (dtf : Bool) (mc : Option Int) (q : String)
    (hfail : isSearchFailure (searchO q) = true)
    (hall : ∀ q2 ∈ cleanedTitles ts,
      ∃ entry, handleSingleTitle searchO dl q2 (clampMax mrpt) dtf mc = .ok entry) :
    handleSingleTitle searchO dl q (clampMax mrpt) dtf mc
        = .ok [("query", .str q), ("matches", .list []),
               ("error", .str (searchFailureMsg (searchO q)))]
    ∧ (∀ (searchO2 : String → HttpResp) (q2 : String), searchO2 q2 = searchO q2 →
        handleSingleTitle searchO2 dl q2 (clampMax mrpt) dtf mc
          = handleSingleTitle searchO dl q2 (clampMax mrpt) dtf mc)
    ∧ (cleanedTitles ts ≠ [] → ∃ entries : List (List (String × PyVal)),
        searchGutenberg searchO dl (.list ts) mrpt dtf mc
            = .ok (.dict [("results", .list (entries.map PyVal.dict))])
        ∧ entries.length = (cleanedTitles ts).length
        ∧ ∀ i (hi : i < (cleanedTitles ts).length) (hi2 : i < entries.length),
            handleSingleTitle searchO dl ((cleanedTitles ts).get ⟨i, hi⟩)
                (clampMax mrpt) dtf mc = .ok (entries.get ⟨i, hi2⟩)) := by
  refine ⟨?_, ?_, ?_⟩
  · unfold handleSingleTitle
    rw [searchGutendex_of_failure _ hfail]
    have hne : (searchFailureMsg (searchO q) != "") = true :=
      bne_iff_ne.mpr (searchFailureMsg_ne_empty _)
    simp [dictShaped, gatherM, hne]
  · intro searchO2 q2 hq
    simp only [handleSingleTitle, hq]
  · intro hne
    obtain ⟨entries, hg⟩ :=
      gatherM_ok_of_forall (f := fun q2 =>
        handleSingleTitle searchO dl q2 (clampMax mrpt) dtf mc) hall
    have hEmpty : (cleanedTitles ts).isEmpty = false := by
      cases hcl : cleanedTitles ts with
      | nil => exact absurd hcl hne
      | cons a l => rfl
    refine ⟨entries, ?_, gatherM_ok_length hg, ?_⟩
    · simp only [searchGutenberg, hEmpty, Bool.false_eq_true, if_false, hg]
    · intro i hi hi2
      exact gatherM_ok_get hg i hi hi2

/-- Witness for C3: two queries, both failing at transport level. -/
theorem search_failure_isolated_witness :
    handleSingleTitle oracleConnFail oracleNoneDl "a" (clampMax 3) false Option.none
      = .ok [("query", .str "a"), ("matches", .list []),
             ("error", .str (searchFailureMsg (oracleConnFail "a")))] :=
  (search_failure_isolated oracleConnFail oracleNoneDl [PyVal.str "a", PyVal.str "b"] 3 false
      Option.none "a" rfl (fun _ _ => ⟨_, rfl⟩)).1

/-- C8: when the search for a query yields a raw result list, the
matches are built by normalizing the dict-shaped entries of the length
`max 1 max_results_per_title` front slice of that list, in order: the
cap applies to raw records (non-dict entries in the slice are dropped
without replacement), and no error key is recorded. -/
theorem matches_from_capped_slice
    (searchO : String → HttpResp) (dl : String → DlResult) (q : String)
    (mrpt : Int) (dtf : Bool) (mc : Option Int)
    (kvs : List (String × PyVal)) (rs : List PyVal)
    (hbody : searchO q = .body (.dict kvs))
    (hres : dictGet kvs "results" = some (.list rs))
    (hnorm : ∀ d ∈ dictShaped (rs.take (clampMax mrpt).toNat),
      ∃ nd, normalizeBook dl d dtf mc = .ok nd) :
    ∃ nds, gatherM (fun d => normalizeBook dl d dtf mc)
        (dictShaped (rs.take (clampMax mrpt).toNat)) = .ok nds
      ∧ handleSingleTitle searchO dl q (clampMax mrpt) dtf mc
          = .ok [("query", .str q), ("matches", .list (nds.map PyVal.dict))]
      ∧ (rs.take (clampMax mrpt).toNat).length ≤ (clampMax mrpt).toNat
      ∧ clampMax mrpt = max 1 mrpt := by
  obtain ⟨nds, hg⟩ := gatherM_ok_of_forall hnorm
  have hslice : pySliceTo rs (clampMax mrpt) = rs.take (clampMax mrpt).toNat := by
    have hpos : (0 : Int) ≤ clampMax mrpt := by unfold clampMax; split <;> omega
    simp [pySliceTo, hpos]
  refine ⟨nds, hg, ?_, ?_, ?_⟩
  · unfold handleSingleTitle
    rw [hbody]
    have hsg : searchGutendex (.body (.dict kvs)) (clampMax mrpt)
        = .ok (rs.take (clampMax mrpt).toNat, Option.none) := by
      simp [searchGutendex, hres, hslice]
    rw [hsg]
    simp [hg]
  · rw [List.length_take]
    exact min_le_left _ _
  · unfold clampMax
    split <;> omega

/-- A search oracle returning one non-dict raw record followed by a
dict-shaped one. -/
def oracleTwoRaw : String → HttpResp := fun _ =>
  .body (.dict [("results", .list [PyVal.int 7, PyVal.dict [("id", PyVal.int 1)]])])

/-- Witness for C8: cap 0 is clamped to 1 and the single kept raw
record, being non-dict, is dropped without replacement. -/
theorem matches_from_capped_slice_witness :
    ∃ nds, gatherM (fun d => normalizeBook oracleNoneDl d false Option.none)
        (dictShaped (([PyVal.int 7, PyVal.dict [("id", PyVal.int 1)]] : List PyVal).take
          (clampMax 0).toNat)) = .ok nds
      ∧ handleSingleTitle oracleTwoRaw oracleNoneDl "q" (clampMax 0) false Option.none
          = .ok [("query", .str "q"), ("matches", .list (nds.map PyVal.dict))]
      ∧ (([PyVal.int 7, PyVal.dict [("id", PyVal.int 1)]] : List PyVal).take
          (clampMax 0).toNat).length ≤ (clampMax 0).toNat
      ∧ clampMax 0 = max 1 0 :=
  matches_from_capped_slice oracleTwoRaw oracleNoneDl "q" 0 false Option.none
    [("results", .list [PyVal.int 7, PyVal.dict [("id", PyVal.int 1)]])]
    [PyVal.int 7, PyVal.dict [("id", PyVal.int 1)]] rfl rfl
    (by intro d hd; simp [dictShaped, clampMax] at hd)

theorem amendedPreferredC4_eq_firstPreferred (kvs : List (String × PyVal)) :
    ∀ ks, amendedPreferredC4 kvs ks = firstPreferred kvs ks := by
  intro ks
  induction ks with
  | nil => rfl
  | cons k rest ih =>
    cases hg : dictGet kvs k with
    | none => simp [amendedPreferredC4, firstPreferred, pyGet, hg, ih]
    | some v => cases v <;> simp [amendedPreferredC4, firstPreferred, pyGet, hg, ih]

theorem claimFallbackC4_eq_fallbackTextFormat :
    ∀ kvs, claimFallbackC4 kvs = fallbackTextFormat kvs := by
  intro kvs
  induction kvs with
  | nil => rfl
  | cons kv rest ih =>
    obtain ⟨k, v⟩ := kv
    cases v <;> simp [claimFallbackC4, fallbackTextFormat, ih]

/-- C4 counterexample: with `text/plain` mapped to the empty string and
`text/html` to `B.html`, the selection the claim describes picks the
empty string under the higher-priority key, while the code (which also
requires truthiness) picks `B.html`. -/
theorem pick_best_claim_counterexample :
    claimPickC4 [("text/plain", PyVal.str ""), ("text/html", PyVal.str "B.html")] = some ""
    ∧ pickBestTextFormat
        (.dict [("text/plain", PyVal.str ""), ("text/html", PyVal.str "B.html")])
        = .ok (some "B.html") :=
  ⟨rfl, rfl⟩

/-- C4 amended: on a formats dict the code implements exactly the
claimed policy with non-empty added to the preferred-pass conditions
(first present, non-null, non-empty, string-valued, non-zip URL under
the priority keys, then the first non-zip `text/` string entry in
mapping order), and when nothing qualifies no download is attempted:
the normalized record does not depend on the download oracle. -/
theorem pick_best_amended (kvs : List (String × PyVal)) (dl1 dl2 : String → DlResult)
    (book : List (String × PyVal)) (dtf : Bool) (mc : Option Int) :
    pickBestTextFormat (.dict kvs) = .ok (amendedPickC4 kvs)
    ∧ (pickBestTextFormat (pyOr (pyGet book "formats") (.dict [])) = .ok Option.none →
        normalizeBook dl1 book dtf mc = normalizeBook dl2 book dtf mc) := by
  constructor
  · cases hk : kvs with
    | nil => rfl
    | cons kv rest =>
      cases hfp : firstPreferred (kv :: rest) preferredKeys <;>
        simp [pickBestTextFormat, amendedPickC4, amendedPreferredC4_eq_firstPreferred,
          claimFallbackC4_eq_fallbackTextFormat, hfp, PyVal.truthy]
  · intro hpick
    unfold normalizeBook
    cases hit : pyIter (pyOr (pyGet book "authors") (.list [])) with
    | error e => rfl
    | ok ra =>
      rw [hpick]
      simp [normalizeCore, textFields]

/-- A second download oracle, distinct from `oracleNoneDl`. -/
def oracleBodyDl : String → DlResult := fun _ => .body "unused"

/-- Witness for C4 amended: the empty record resolves no text URL and
its normalization is independent of the download oracle. -/
theorem pick_best_amended_witness :
    pickBestTextFormat (.dict ([] : List (String × PyVal)))
        = .ok (amendedPickC4 [])
    ∧ normalizeBook oracleNoneDl [] false Option.none
        = normalizeBook oracleBodyDl [] false Option.none :=
  ⟨(pick_best_amended [] oracleNoneDl oracleBodyDl [] false Option.none).1,
   (pick_best_amended [] oracleNoneDl oracleBodyDl [] false Option.none).2 rfl⟩

/-- C5 counterexample: with text download requested and no text URL
resolved (empty record), the normalized record carries the key `text`
with value null — the claim says the `text` key is absent. -/
theorem text_key_present_counterexample :
    (normalizeBook oracleNoneDl [] true (some 20000)).map (fun nd => dictGet nd "text_url")
        = .ok (some PyVal.none)
    ∧ (normalizeBook oracleNoneDl [] true (some 20000)).map (fun nd => dictGet nd "text")
        = .ok (some PyVal.none) :=
  ⟨rfl, rfl⟩

/-- C5 amended: when download is not requested, neither `text` nor
`text_error` appears; when requested, a missing (or empty) resolved
URL leaves `text` null with no `text_error`; a failed download leaves
`text` null and records the descriptive `text_error`; a successful
download stores the body truncated to `max_chars` characters when
positive (in full when null or non-positive) with no `text_error`. -/
theorem text_fields_amended (dl : String → DlResult) (book : List (String × PyVal))
    (dtf : Bool) (mc : Option Int) (nd : List (String × PyVal))
    (hok : normalizeBook dl book dtf mc = .ok nd) :
    (dtf = false → dictGet nd "text" = Option.none ∧ dictGet nd "text_error" = Option.none)
    ∧ (dtf = true → ∃ tu,
        pickBestTextFormat (pyOr (pyGet book "formats") (.dict [])) = .ok tu
        ∧ ((tu = Option.none ∨ tu = some "") →
            dictGet nd "text" = some PyVal.none ∧ dictGet nd "text_error" = Option.none)
        ∧ (∀ u, tu = some u → u ≠ "" →
            (∀ e, dl u = .httpError e →
                dictGet nd "text" = some PyVal.none
                ∧ dictGet nd "text_error"
                    = some (.str ("HTTP error while downloading text: " ++ e)))
            ∧ (∀ b, dl u = .body b →
                dictGet nd "text" = some (.str (truncClaim mc b))
                ∧ dictGet nd "text_error" = Option.none))) := by
  obtain ⟨ra, tu, hit, hpick, hnd⟩ := normalizeBook_ok_iff.mp hok
  subst hnd
  constructor
  · rintro rfl
    exact ⟨dictGet_normalizeCore_text_false dl book ra tu mc,
           dictGet_normalizeCore_text_error_false dl book ra tu mc⟩
  · rintro rfl
    refine ⟨tu, hpick, ?_, ?_⟩
    · intro htu
      have hTF : textFields dl tu true mc = (Option.none, Option.none) := by
        rcases htu with h | h <;> subst h <;> simp [textFields]
      constructor
      · simp [dictGet_normalizeCore_text_true, hTF, optStrToPy]
      · simp [dictGet_normalizeCore_text_error_true, hTF]
    · intro u hu hne
      subst hu
      have hcond : (true && (u != "")) = true := by simp [bne_iff_ne.mpr hne]
      constructor
      · intro e he
        have hTF : textFields dl (some u) true mc
            = (Option.none, some ("HTTP error while downloading text: " ++ e)) := by
          simp [textFields, hcond, downloadText, he]
        have hmsg : ("HTTP error while downloading text: " ++ e) ≠ "" :=
          string_append_ne_empty (by decide)
        constructor
        · simp [dictGet_normalizeCore_text_true, hTF, optStrToPy]
        · simp [dictGet_normalizeCore_text_error_true, hTF, bne_iff_ne.mpr hmsg]
      · intro b hb
        have hTF : textFields dl (some u) true mc = (some (truncClaim mc b), Option.none) := by
          simp [textFields, hcond, downloadText_of_body mc hb]
        constructor
        · simp [dictGet_normalizeCore_text_true, hTF, optStrToPy]
        · simp [dictGet_normalizeCore_text_error_true, hTF]

/-- Book record with a single plain-text format, used by witnesses. -/
def bookPlain : List (String × PyVal) :=
  [("formats", PyVal.dict [("text/plain", PyVal.str "http://x")])]

/-- Normalized record for `bookPlain` with download requested, the
`HelloWorld` download oracle and a cap of 5 characters. -/
def ndHello : List (String × PyVal) :=
  [("id", PyVal.none), ("title", PyVal.none), ("authors", PyVal.list []),
   ("languages", PyVal.list []), ("download_count", PyVal.none),
   ("subjects", PyVal.list []), ("bookshelves", PyVal.list []),
   ("copyright", PyVal.none), ("gutenberg_url", PyVal.none),
   ("text_url", PyVal.str "http://x"), ("text", PyVal.str "Hello")]

/-- Witness for C5 amended: a successful download truncated to 5
characters, with no `text_error`. -/
theorem text_fields_amended_witness :
    dictGet ndHello "text" = some (.str (truncClaim (some 5) "HelloWorld"))
    ∧ dictGet ndHello "text_error" = Option.none := by
  have h := (text_fields_amended oracleHelloDl bookPlain true (some 5) ndHello rfl).2 rfl
  obtain ⟨tu, htu, h1, h2⟩ := h
  have hcomp : pickBestTextFormat (pyOr (pyGet bookPlain "formats") (.dict []))
      = .ok (some "http://x") := rfl
  rw [hcomp] at htu
  injection htu with htu2
  exact (h2 "http://x" htu2.symm (by decide)).2 "HelloWorld" rfl

/-- Values Python can iterate over (lists, strings, dicts). -/
def iterShaped : PyVal → Bool
  | .list _ => true
  | .str _ => true
  | .dict _ => true
  | _ => false

/-- Test for a dict value. -/
def isDictVal : PyVal → Bool
  | .dict _ => true
  | _ => false

theorem pyIter_ok_of_iterShaped {v : PyVal} (h : iterShaped v = true) :
    ∃ xs, pyIter v = .ok xs := by
  cases v with
  | list xs => exact ⟨_, rfl⟩
  | str s => exact ⟨_, rfl⟩
  | dict kvs => exact ⟨_, rfl⟩
  | none => simp [iterShaped] at h
  | bool b => simp [iterShaped] at h
  | int n => simp [iterShaped] at h

theorem pickBestTextFormat_dict_ok (kvs : List (String × PyVal)) :
    ∃ r, pickBestTextFormat (.dict kvs) = .ok r := by
  unfold pickBestTextFormat
  split
  · exact ⟨_, rfl⟩
  · cases hfp : firstPreferred kvs preferredKeys <;> simp [hfp]

/-- C6 counterexample: a truthy non-iterable authors field makes
normalization raise a TypeError instead of degrading the field. -/
theorem normalize_wrong_type_counterexample :
    normalizeBook oracleNoneDl [("authors", PyVal.int 1)] false Option.none
      = .error (.typeError "\x27int\x27 object is not iterable") := rfl

/-- C6 amended: normalization succeeds whenever the (defaulted) authors
value is iterable and the (defaulted) formats value is a mapping — in
particular whenever those fields are absent or falsy — and a record
with no authors, languages or formats normalizes to `authors: []`,
`languages: []`, `text_url: null` without error; but a truthy
non-iterable authors value or truthy non-mapping formats value raises,
and other wrong-typed fields pass through rather than degrade. -/
theorem normalize_tolerates_missing_fields (dl : String → DlResult)
    (book : List (String × PyVal)) (dtf : Bool) (mc : Option Int)
    (hAuth : iterShaped (pyOr (pyGet book "authors") (.list [])) = true)
    (hFmt : isDictVal (pyOr (pyGet book "formats") (.dict [])) = true) :
    (∃ nd, normalizeBook dl book dtf mc = .ok nd)
    ∧ (pyGet book "authors" = .none → pyGet book "languages" = .none →
        pyGet book "formats" = .none →
        ∃ nd, normalizeBook dl book dtf mc = .ok nd
          ∧ dictGet nd "authors" = some (.list [])
          ∧ dictGet nd "languages" = some (.list [])
          ∧ dictGet nd "text_url" = some PyVal.none) := by
  obtain ⟨ra, hra⟩ := pyIter_ok_of_iterShaped hAuth
  obtain ⟨kvs2, hkvs⟩ : ∃ kvs2, pyOr (pyGet book "formats") (.dict []) = .dict kvs2 := by
    cases hv : pyOr (pyGet book "formats") (.dict []) <;>
      rw [hv] at hFmt <;> simp [isDictVal] at hFmt
    exact ⟨_, rfl⟩
  obtain ⟨tu, htu⟩ := pickBestTextFormat_dict_ok kvs2
  have hpick : pickBestTextFormat (pyOr (pyGet book "formats") (.dict [])) = .ok tu := by
    rw [hkvs]; exact htu
  have hnb : normalizeBook dl book dtf mc = .ok (normalizeCore dl book ra tu dtf mc) :=
    normalizeBook_ok_iff.mpr ⟨ra, tu, hra, hpick, rfl⟩
  constructor
  · exact ⟨_, hnb⟩
  · intro hA hL hF
    rw [hA] at hra
    have hra2 : Except.ok (ε := PyError) ([] : List PyVal) = .ok ra := hra
    injection hra2 with hra3
    rw [hF] at hpick
    have hpick2 : Except.ok (ε := PyError) (Option.none (α := String)) = .ok tu := hpick
    injection hpick2 with hpick3
    subst hra3
    subst hpick3
    refine ⟨normalizeCore dl book [] Option.none dtf mc, hnb, ?_, ?_, ?_⟩
    · rw [dictGet_normalizeCore_authors]; rfl
    · rw [dictGet_normalizeCore_languages, hL]; rfl
    · rw [dictGet_normalizeCore_text_url]; rfl

/-- Witness for C6 amended: a record holding only an id field. -/
theorem normalize_tolerates_missing_fields_witness :
    ∃ nd, normalizeBook oracleNoneDl [("id", PyVal.int 1661)] false Option.none = .ok nd
      ∧ dictGet nd "authors" = some (.list [])
      ∧ dictGet nd "languages" = some (.list [])
      ∧ dictGet nd "text_url" = some PyVal.none :=
  (normalize_tolerates_missing_fields oracleNoneDl [("id", PyVal.int 1661)] false Option.none
      rfl rfl).2 rfl rfl rfl

/-- C7 counterexample: a boolean id (not an integer in the JSON sense)
still yields a non-null catalog URL, rendered from the boolean, since
the implementation treats booleans as integers. -/
theorem gutenberg_url_bool_counterexample :
    (normalizeBook oracleNoneDl [("id", PyVal.bool true)] false Option.none).map
        (fun nd => dictGet nd "gutenberg_url")
      = .ok (some (.str "https://www.gutenberg.org/ebooks/True")) := rfl

/-- C7 amended: `gutenberg_url` is non-null exactly when the id passes
the implementation's integer test, which accepts integers and also
booleans; an integer id yields the fixed template applied to the
decimal id, a boolean id yields the template applied to the rendered
boolean, and a missing or otherwise-typed id yields null. -/
theorem gutenberg_url_amended (dl : String → DlResult) (book : List (String × PyVal))
    (dtf : Bool) (mc : Option Int) (nd : List (String × PyVal))
    (hok : normalizeBook dl book dtf mc = .ok nd) :
    (∀ n : Int, pyGet book "id" = .int n →
        dictGet nd "gutenberg_url"
          = some (.str ("https://www.gutenberg.org/ebooks/" ++ toString n)))
    ∧ (∀ b : Bool, pyGet book "id" = .bool b →
        dictGet nd "gutenberg_url"
          = some (.str ("https://www.gutenberg.org/ebooks/"
              ++ (if b then "True" else "False"))))
    ∧ (isInstInt (pyGet book "id") = false → dictGet nd "gutenberg_url" = some PyVal.none)
    ∧ (dictGet nd "gutenberg_url" = some PyVal.none
        ↔ isInstInt (pyGet book "id") = false) := by
  obtain ⟨ra, tu, hit, hpick, hnd⟩ := normalizeBook_ok_iff.mp hok
  subst hnd
  have hgu := dictGet_normalizeCore_gutenberg_url dl book ra tu dtf mc
  refine ⟨?_, ?_, ?_, ?_⟩
  · intro n hn
    rw [hgu, hn]
    simp [gutenbergUrlOf, isInstInt, pyStr, pyRepr]
  · intro b hb
    rw [hgu, hb]
    cases b <;> simp [gutenbergUrlOf, isInstInt, pyStr, pyRepr]
  · intro hfalse
    rw [hgu]
    simp [gutenbergUrlOf, hfalse]
  · rw [hgu]
    constructor
    · intro h
      cases hi : isInstInt (pyGet book "id") with
      | false => rfl
      | true => simp [gutenbergUrlOf, hi] at h
    · intro h
      simp [gutenbergUrlOf, h]

/-- Normalized record for the id-1661 book, used by the C7 witness. -/
def ndId1661 : List (String × PyVal) :=
  [("id", PyVal.int 1661), ("title", PyVal.none), ("authors", PyVal.list []),
   ("languages", PyVal.list []), ("download_count", PyVal.none),
   ("subjects", PyVal.list []), ("bookshelves", PyVal.list []),
   ("copyright", PyVal.none),
   ("gutenberg_url", PyVal.str "https://www.gutenberg.org/ebooks/1661"),
   ("text_url", PyVal.none)]

/-- Witness for C7 amended: id 1661 yields the catalog URL ending in
`/ebooks/1661`. -/
theorem gutenberg_url_amended_witness :
    dictGet ndId1661 "gutenberg_url"
      = some (.str ("https://www.gutenberg.org/ebooks/" ++ toString (1661 : Int))) :=
  (gutenberg_url_amended oracleNoneDl [("id", PyVal.int 1661)] false Option.none ndId1661
      rfl).1 1661 rfl

end Guttenread
